import Mathlib

/-!
Shallow embedding of the fractional-step time-advancement engine of
`NavierStokesSolver.cpp` (PetIBM).  Distributed PETSc vectors are embedded
as lists of rationals, matrices as lists of rows, and the PETSc vector
primitives (`VecWAXPY`, `VecPointwiseMult`, `VecScale`, `MatMult`,
`MatMultAdd`) as the corresponding element-wise list operations.
-/

/-- A PETSc `Vec`, embedded as a list of rationals. -/
abbrev PVec := List ℚ

/-- A PETSc `Mat`, embedded as a list of rows. -/
abbrev PMat := List PVec

/-- Dot product of two vectors (zip-with-multiply, then sum). -/
def dotProd (r x : PVec) : ℚ := (List.zipWith (· * ·) r x).sum

/-- `MatMult(A, x, y)`: `y = A·x`, one dot product per row. -/
def matMult (A : PMat) (x : PVec) : PVec := A.map (fun r => dotProd r x)

/-- `VecWAXPY(w, a, x, y)`: `w = a·x + y`, element-wise. -/
def vecWAXPY (a : ℚ) (x y : PVec) : PVec :=
  List.zipWith (fun xi yi => a * xi + yi) x y

/-- `VecPointwiseMult(w, x, y)`: `w[i] = x[i] * y[i]`. -/
def vecPointwiseMult (x y : PVec) : PVec := List.zipWith (· * ·) x y

/-- `VecScale(x, a)`: `x = a·x`, element-wise. -/
def vecScale (a : ℚ) (x : PVec) : PVec := x.map (fun xi => a * xi)

/-- `MatMultAdd(A, x, y, z)`: `z = A·x + y`. -/
def matMultAdd (A : PMat) (x y : PVec) : PVec :=
  List.zipWith (· + ·) (matMult A x) y

/-- Element-wise sum of two vectors. -/
def vecAdd (x y : PVec) : PVec := List.zipWith (· + ·) x y

/-- Element-wise difference of two vectors. -/
def vecSub (x y : PVec) : PVec := List.zipWith (fun a b => a - b) x y

/-- The fields of `SimulationParameters` read by the engine:
start step, number of time steps, save interval. -/
structure SimulationParameters where
  startStep : Int
  nt : Int
  nsave : Int

/-- The mutable state of `NavierStokesSolver` that the time-advancement
engine reads and writes: the step counter, the flow-state vectors, the
right-hand-side scratch vectors, the diagonal operators and the sparse
operators.  The borrowed `simParams` configuration is carried along
(referenced, never mutated). -/
structure NavierStokesSolver where
  simParams : SimulationParameters
  timeStep : Int
  qxLocal : PVec
  qyLocal : PVec
  qzLocal : PVec
  q : PVec
  qStar : PVec
  H : PVec
  rn : PVec
  bc1 : PVec
  rhs1 : PVec
  r2 : PVec
  rhs2 : PVec
  lambda : PVec
  temp : PVec
  RInv : PVec
  MHat : PVec
  BN : PVec
  A : PMat
  QT : PMat
  BNQ : PMat
  QTBNQ : PMat

/-- The constructor `NavierStokesSolver::NavierStokesSolver`: stores the
configuration, sets `timeStep = simParams->startStep` and nulls every
vector and matrix handle (`PETSC_NULL` embedded as the empty list). -/
def mkNavierStokesSolver (simParams : SimulationParameters) : NavierStokesSolver :=
  { simParams := simParams
    timeStep := simParams.startStep
    qxLocal := [], qyLocal := [], qzLocal := []
    q := [], qStar := [], H := [], rn := [], bc1 := [], rhs1 := []
    r2 := [], rhs2 := [], lambda := [], temp := []
    RInv := [], MHat := [], BN := []
    A := [], QT := [], BNQ := [], QTBNQ := [] }

/-- A fatal diagnostic printed through `PetscPrintf` before the process
terminates: the format text together with the integer data interpolated
into it. -/
structure Diagnostic where
  message : String
  args : List Int
deriving DecidableEq

/-- Modelled from the spec: the bodies of `calculateExplicitTerms`,
`updateBoundaryGhosts`, `generateBC1` and `generateR2` live in inline
`.inl` files that are not part of the examined source, and the two Krylov
solves are performed by the external linear-algebra engine (PETSc `KSP`).
Each is an oracle: a function of the current engine state producing
exactly the outputs the spec assigns to it — explicit terms into `H`/`rn`,
ghost values into the per-component local vectors, the boundary-condition
vector `bc1`, the variant-specific residual `r2`, and for each solve the
solution vector together with the convergence-reason code. -/
structure Env where
  explicitTerms : NavierStokesSolver → PVec × PVec
  ghostValues : NavierStokesSolver → PVec × PVec × PVec
  bc1Values : NavierStokesSolver → PVec
  r2Values : NavierStokesSolver → PVec
  ksp1 : PVec → PVec × Int
  ksp2 : PVec → PVec × Int

/-- Modelled from the spec: step 1 evaluates the explicit
advection/diffusion contribution into `H`/`rn` from the current state;
it writes no other field. -/
def calculateExplicitTerms (e : Env) (s : NavierStokesSolver) : NavierStokesSolver :=
  { s with H := (e.explicitTerms s).1, rn := (e.explicitTerms s).2 }

/-- Modelled from the spec: step 2 refreshes the ghost/boundary values in
the per-component local flux vectors; it writes no other field. -/
def updateBoundaryGhosts (e : Env) (s : NavierStokesSolver) : NavierStokesSolver :=
  { s with qxLocal := (e.ghostValues s).1
           qyLocal := (e.ghostValues s).2.1
           qzLocal := (e.ghostValues s).2.2 }

/-- Modelled from the spec: step 3 assembles the boundary-condition
contribution vector `bc1`; it writes no other field. -/
def generateBC1 (e : Env) (s : NavierStokesSolver) : NavierStokesSolver :=
  { s with bc1 := e.bc1Values s }

/-- Modelled from the spec: step 6 assembles the variant-specific
residual `r2` (zero for the plain variant); it writes no other field. -/
def generateR2 (e : Env) (s : NavierStokesSolver) : NavierStokesSolver :=
  { s with r2 := e.r2Values s }

/-- `NavierStokesSolver::generateRHS1`:
`VecWAXPY(rhs1, 1.0, rn, bc1)` then `VecPointwiseMult(rhs1, MHat, rhs1)`. -/
def generateRHS1 (s : NavierStokesSolver) : NavierStokesSolver :=
  let w := vecWAXPY 1 s.rn s.bc1
  { s with rhs1 := vecPointwiseMult s.MHat w }

/-- `NavierStokesSolver::generateRHS2`:
`VecScale(r2, -1.0)` then `MatMultAdd(QT, qStar, r2, rhs2)`. -/
def generateRHS2 (s : NavierStokesSolver) : NavierStokesSolver :=
  let r2neg := vecScale (-1) s.r2
  { s with r2 := r2neg, rhs2 := matMultAdd s.QT s.qStar r2neg }

/-- `NavierStokesSolver::solveIntermediateVelocity`:
`KSPSolve(ksp1, rhs1, qStar)`, then on a negative convergence reason print
`"Velocity solve diverged due to reason: %d\n"` with the reason and
`exit(0)` (embedded as an `error` result carrying the diagnostic);
otherwise return normally with `qStar` updated. -/
def solveIntermediateVelocity (e : Env) (s : NavierStokesSolver) :
    Except Diagnostic NavierStokesSolver :=
  let sol := (e.ksp1 s.rhs1).1
  let reason := (e.ksp1 s.rhs1).2
  if reason < 0 then
    Except.error { message := "Velocity solve diverged due to reason: %d\n"
                   args := [reason] }
  else
    Except.ok { s with qStar := sol }

/-- `NavierStokesSolver::solvePoissonSystem`:
`KSPSolve(ksp2, rhs2, lambda)`, then on a negative convergence reason print
`"Poisson solve diverged due to reason: %d\n"` with the reason and
`exit(0)`; otherwise return normally with `lambda` updated. -/
def solvePoissonSystem (e : Env) (s : NavierStokesSolver) :
    Except Diagnostic NavierStokesSolver :=
  let sol := (e.ksp2 s.rhs2).1
  let reason := (e.ksp2 s.rhs2).2
  if reason < 0 then
    Except.error { message := "Poisson solve diverged due to reason: %d\n"
                   args := [reason] }
  else
    Except.ok { s with lambda := sol }

/-- `NavierStokesSolver::projectionStep`:
`MatMult(BNQ, lambda, temp)` then `VecWAXPY(q, -1.0, temp, qStar)`. -/
def projectionStep (s : NavierStokesSolver) : NavierStokesSolver :=
  let t := matMult s.BNQ s.lambda
  { s with temp := t, q := vecWAXPY (-1) t s.qStar }

/-- `NavierStokesSolver::stepTime`: the ordered per-step sequence; a fatal
solver divergence (`exit(0)` in the source) propagates as an `error`. -/
def stepTime (e : Env) (s : NavierStokesSolver) :
    Except Diagnostic NavierStokesSolver :=
  let s1 := calculateExplicitTerms e s
  let s2 := updateBoundaryGhosts e s1
  let s3 := generateBC1 e s2
  let s4 := generateRHS1 s3
  match solveIntermediateVelocity e s4 with
  | Except.error d => Except.error d
  | Except.ok s5 =>
    let s6 := generateR2 e s5
    let s7 := generateRHS2 s6
    match solvePoissonSystem e s7 with
    | Except.error d => Except.error d
    | Except.ok s8 =>
      let s9 := projectionStep s8
      Except.ok { s9 with timeStep := s9.timeStep + 1 }

/-- `NavierStokesSolver::savePoint`: `timeStep % simParams->nsave == 0`.
The C++ `%` is truncated division; division by zero is an error, embedded
as `none`. -/
def savePoint (s : NavierStokesSolver) : Option Bool :=
  if s.simParams.nsave = 0 then none
  else some (if Int.tmod s.timeStep s.simParams.nsave = 0 then true else false)

/-- `NavierStokesSolver::finished`:
`timeStep >= simParams->startStep + simParams->nt`. -/
def finished (s : NavierStokesSolver) : Bool :=
  if s.simParams.startStep + s.simParams.nt ≤ s.timeStep then true else false

/-- `NavierStokesSolver::countNumNonZeros`: zero both counters, then for
each column index bump `d_nnz` when it falls in `[rowStart, rowEnd)` and
`o_nnz` otherwise.  The `(cols, numCols)` array/length pair is embedded as
a list; the returned pair is the `(d_nnz, o_nnz)` output parameters. -/
def countNumNonZeros (cols : List Int) (rowStart rowEnd : Int) : Int × Int :=
  cols.foldl
    (fun acc c =>
      if rowStart ≤ c ∧ c < rowEnd then (acc.1 + 1, acc.2) else (acc.1, acc.2 + 1))
    (0, 0)

/-- One engine phase of `stepTime`, as a state transformer that may
terminate the run. -/
abbrev Phase := NavierStokesSolver → Except Diagnostic NavierStokesSolver

/-- The nine sub-steps of `stepTime`, in their source order. -/
def phases (e : Env) : List Phase :=
  [fun s => Except.ok (calculateExplicitTerms e s),
   fun s => Except.ok (updateBoundaryGhosts e s),
   fun s => Except.ok (generateBC1 e s),
   fun s => Except.ok (generateRHS1 s),
   solveIntermediateVelocity e,
   fun s => Except.ok (generateR2 e s),
   fun s => Except.ok (generateRHS2 s),
   solvePoissonSystem e,
   fun s => Except.ok (projectionStep s)]

/-- Run a list of phases left to right, stopping at the first fatal one. -/
def runPhases : List Phase → NavierStokesSolver → Except Diagnostic NavierStokesSolver
  | [], s => Except.ok s
  | f :: fs, s =>
    match f s with
    | Except.error d => Except.error d
    | Except.ok t => runPhases fs t

/-- Run `stepTime` a given number of times; `none` if some step diverged. -/
def runSteps (e : Env) : Nat → NavierStokesSolver → Option NavierStokesSolver
  | 0, s => some s
  | n + 1, s =>
    match stepTime e s with
    | Except.error _ => none
    | Except.ok t => runSteps e n t

/-! ### Helper lemmas -/

theorem vecWAXPY_neg_one (t x : PVec) : vecWAXPY (-1) t x = vecSub x t := by
  unfold vecWAXPY vecSub
  induction t generalizing x with
  | nil => cases x <;> rfl
  | cons a as ih =>
    cases x with
    | nil => rfl
    | cons b bs =>
      show (-1 * a + b) :: _ = (b - a) :: _
      rw [ih]
      congr 1
      ring

theorem vecWAXPY_one (x y : PVec) : vecWAXPY 1 x y = vecAdd x y := by
  unfold vecWAXPY vecAdd
  induction x generalizing y with
  | nil => cases y <;> rfl
  | cons a as ih =>
    cases y with
    | nil => rfl
    | cons b bs =>
      show (1 * a + b) :: _ = (a + b) :: _
      rw [ih]
      congr 1
      ring

theorem matMultAdd_neg (A : PMat) (x y : PVec) :
    matMultAdd A x (vecScale (-1) y) = vecSub (matMult A x) y := by
  unfold matMultAdd vecScale vecSub
  generalize matMult A x = z
  induction z generalizing y with
  | nil => cases y <;> rfl
  | cons a as ih =>
    cases y with
    | nil => rfl
    | cons b bs =>
      show (a + -1 * b) :: _ = (a - b) :: _
      rw [ih]
      congr 1
      ring

theorem countP_add_countP_not (p : Int → Bool) (l : List Int) :
    l.countP p + l.countP (fun a => !p a) = l.length := by
  induction l with
  | nil => rfl
  | cons a l ih =>
    by_cases h : p a <;> simp [List.countP_cons, h] <;> omega

theorem countNumNonZeros_aux (rowStart rowEnd : Int) (cols : List Int) :
    ∀ d o : Int,
      cols.foldl
        (fun acc c =>
          if rowStart ≤ c ∧ c < rowEnd then (acc.1 + 1, acc.2) else (acc.1, acc.2 + 1))
        (d, o)
      = (d + (cols.countP fun c => decide (rowStart ≤ c ∧ c < rowEnd) : Int),
         o + (cols.countP fun c => !decide (rowStart ≤ c ∧ c < rowEnd) : Int)) := by
  induction cols with
  | nil =>
    intro d o
    simp
  | cons c cs ih =>
    intro d o
    simp only [List.foldl_cons, List.countP_cons]
    by_cases hc : rowStart ≤ c ∧ c < rowEnd
    · rw [if_pos hc, ih]
      simp [hc]
      all_goals omega
    · rw [if_neg hc, ih]
      simp [hc]
      all_goals omega

/-! ### Claim theorems -/

/-- C2: `projectionStep` sets the flux vector `q` to
`qStar − BNQ·lambda`, the predicted flux minus the matrix-vector product
of `BNQ` with `lambda`. -/
theorem projectionStep_q_spec (s : NavierStokesSolver) :
    (projectionStep s).q = vecSub s.qStar (matMult s.BNQ s.lambda) := by
  show vecWAXPY (-1) (matMult s.BNQ s.lambda) s.qStar = _
  exact vecWAXPY_neg_one _ _

/-- C3: `generateRHS2` sets `rhs2` to `Qᵗ·qStar − r2`, with `r2` taken at
the value it had on entry. -/
theorem generateRHS2_rhs2_spec (s : NavierStokesSolver) :
    (generateRHS2 s).rhs2 = vecSub (matMult s.QT s.qStar) s.r2 := by
  show matMultAdd s.QT s.qStar (vecScale (-1) s.r2) = _
  exact matMultAdd_neg _ _ _

/-- C4: every entry `i` of the vector `rhs1` assembled by `generateRHS1`
equals `MHat[i] * (rn[i] + bc1[i])`. -/
theorem generateRHS1_rhs1_spec (s : NavierStokesSolver) (i : Nat)
    (h : i < (generateRHS1 s).rhs1.length)
    (hm : i < s.MHat.length) (hr : i < s.rn.length) (hb : i < s.bc1.length) :
    (generateRHS1 s).rhs1.get ⟨i, h⟩ =
      s.MHat.get ⟨i, hm⟩ * (s.rn.get ⟨i, hr⟩ + s.bc1.get ⟨i, hb⟩) := by
  simp only [generateRHS1, vecPointwiseMult, vecWAXPY, List.get_eq_getElem] at h ⊢
  simp only [List.getElem_zipWith]
  ring

/-- C6: `countNumNonZeros` returns in `d_nnz` exactly the number of column
indices inside the owned row range `[rowStart, rowEnd)`, in `o_nnz`
exactly the number of remaining indices, and the two counts always sum to
the number of columns — an exact partition, computed from the arguments
alone. -/
theorem countNumNonZeros_spec (cols : List Int) (rowStart rowEnd : Int) :
    (countNumNonZeros cols rowStart rowEnd).1
        = (cols.countP fun c => decide (rowStart ≤ c ∧ c < rowEnd) : Int)
    ∧ (countNumNonZeros cols rowStart rowEnd).2
        = (cols.countP fun c => !decide (rowStart ≤ c ∧ c < rowEnd) : Int)
    ∧ (countNumNonZeros cols rowStart rowEnd).1
        + (countNumNonZeros cols rowStart rowEnd).2 = (cols.length : Int) := by
  have h := countNumNonZeros_aux rowStart rowEnd cols 0 0
  unfold countNumNonZeros
  rw [h]
  refine ⟨by ring, by ring, ?_⟩
  have hsum := countP_add_countP_not (fun c => decide (rowStart ≤ c ∧ c < rowEnd)) cols
  omega

theorem solveIntermediateVelocity_ok (e : Env) (s s' : NavierStokesSolver)
    (h : solveIntermediateVelocity e s = Except.ok s') :
    s' = { s with qStar := (e.ksp1 s.rhs1).1 } := by
  simp only [solveIntermediateVelocity] at h
  split at h
  · exact absurd h (by simp)
  · injection h with h
    exact h.symm

theorem solvePoissonSystem_ok (e : Env) (s s' : NavierStokesSolver)
    (h : solvePoissonSystem e s = Except.ok s') :
    s' = { s with lambda := (e.ksp2 s.rhs2).1 } := by
  simp only [solvePoissonSystem] at h
  split at h
  · exact absurd h (by simp)
  · injection h with h
    exact h.symm

theorem stepTime_ok (e : Env) (s t : NavierStokesSolver)
    (h : stepTime e s = Except.ok t) :
    t.simParams = s.simParams ∧ t.timeStep = s.timeStep + 1 := by
  simp only [stepTime] at h
  cases h1 : solveIntermediateVelocity e
      (generateRHS1 (generateBC1 e (updateBoundaryGhosts e (calculateExplicitTerms e s)))) with
  | error d => simp [h1] at h
  | ok s5 =>
    simp only [h1] at h
    cases h2 : solvePoissonSystem e (generateRHS2 (generateR2 e s5)) with
    | error d => simp [h2] at h
    | ok s8 =>
      simp only [h2] at h
      have e1 := solveIntermediateVelocity_ok e _ s5 h1
      have e2 := solvePoissonSystem_ok e _ s8 h2
      subst e1
      subst e2
      injection h with h
      subst h
      exact ⟨rfl, rfl⟩

theorem runSteps_ok (e : Env) :
    ∀ (n : Nat) (s s' : NavierStokesSolver), runSteps e n s = some s' →
      s'.simParams = s.simParams ∧ s'.timeStep = s.timeStep + n := by
  intro n
  induction n with
  | zero =>
    intro s s' h
    simp only [runSteps, Option.some.injEq] at h
    subst h
    simp
  | succ n ih =>
    intro s s' h
    simp only [runSteps] at h
    cases h1 : stepTime e s with
    | error d => simp [h1] at h
    | ok t =>
      simp only [h1] at h
      obtain ⟨hp, ht⟩ := stepTime_ok e s t h1
      obtain ⟨hp2, ht2⟩ := ih t s' h
      refine ⟨hp2.trans hp, ?_⟩
      rw [ht2, ht]
      push_cast
      ring

/-- C8: with a positive save interval `nsave` and a non-negative step
counter, `savePoint` returns `true` exactly at step indices that are
multiples of `nsave` and `false` at every other step index. -/
theorem savePoint_spec (s : NavierStokesSolver)
    (hm : 0 < s.simParams.nsave) (ht : 0 ≤ s.timeStep) :
    (savePoint s = some true ↔ s.simParams.nsave ∣ s.timeStep)
    ∧ (savePoint s = some false ↔ ¬ s.simParams.nsave ∣ s.timeStep) := by
  unfold savePoint
  rw [if_neg (by omega), Int.tmod_eq_emod ht (le_of_lt hm)]
  by_cases hd : s.simParams.nsave ∣ s.timeStep
  · rw [if_pos (Int.emod_eq_zero_of_dvd hd)]
    simp [hd]
  · rw [if_neg (fun hz => hd (Int.dvd_of_emod_eq_zero hz))]
    simp [hd]

/-- C10: `savePoint` evaluates `timeStep % nsave` with no guard, so
`nsave ≠ 0` is a necessary precondition: the result is the division-by-zero
error exactly when `nsave = 0`, and is total (some Boolean) whenever
`nsave ≠ 0`. -/
theorem savePoint_zero_guard (s : NavierStokesSolver) :
    savePoint s = none ↔ s.simParams.nsave = 0 := by
  unfold savePoint
  by_cases h : s.simParams.nsave = 0 <;> simp [h]

/-- C9: within a step, the flux vector `q` is written by `projectionStep`
alone — every other sub-step of `stepTime` (explicit terms, ghost update,
`bc1`, `rhs1`, System-1 solve, `r2`, `rhs2`, System-2 solve) leaves `q`
unchanged, while `projectionStep` rewrites it to `qStar − BNQ·lambda`. -/
theorem stepTime_q_frame (e : Env) (s : NavierStokesSolver) :
    (calculateExplicitTerms e s).q = s.q
    ∧ (updateBoundaryGhosts e s).q = s.q
    ∧ (generateBC1 e s).q = s.q
    ∧ (generateRHS1 s).q = s.q
    ∧ ((solveIntermediateVelocity e s).toOption.map NavierStokesSolver.q
        = (solveIntermediateVelocity e s).toOption.map fun _ => s.q)
    ∧ (generateR2 e s).q = s.q
    ∧ (generateRHS2 s).q = s.q
    ∧ ((solvePoissonSystem e s).toOption.map NavierStokesSolver.q
        = (solvePoissonSystem e s).toOption.map fun _ => s.q)
    ∧ (projectionStep s).q = vecSub s.qStar (matMult s.BNQ s.lambda) := by
  refine ⟨rfl, rfl, rfl, rfl, ?_, rfl, rfl, ?_, ?_⟩
  · simp only [solveIntermediateVelocity]
    by_cases hr : (e.ksp1 s.rhs1).2 < 0 <;> simp only [hr, if_true, if_false] <;> rfl
  · simp only [solvePoissonSystem]
    by_cases hr : (e.ksp2 s.rhs2).2 < 0 <;> simp only [hr, if_true, if_false] <;> rfl
  · show vecWAXPY (-1) (matMult s.BNQ s.lambda) s.qStar = _
    exact vecWAXPY_neg_one _ _

/-- C1: `stepTime` runs exactly the ordered nine-phase sequence —
explicit terms, ghost refresh, `bc1`, `rhs1`, System-1 solve, `r2`,
`rhs2`, System-2 solve, projection — and then increments the step counter
`timeStep` by exactly one (on any completed step). -/
theorem stepTime_sequence (e : Env) (s : NavierStokesSolver) :
    stepTime e s
      = Except.map (fun t => { t with timeStep := t.timeStep + 1 })
          (runPhases (phases e) s)
    ∧ ((stepTime e s).toOption.map NavierStokesSolver.timeStep
        = (stepTime e s).toOption.map fun _ => s.timeStep + 1) := by
  constructor
  · simp only [stepTime, phases, runPhases]
    rcases h1 : solveIntermediateVelocity e
        (generateRHS1 (generateBC1 e (updateBoundaryGhosts e (calculateExplicitTerms e s)))) with d | s5
    · simp [Except.map]
    · rcases h2 : solvePoissonSystem e (generateRHS2 (generateR2 e s5)) with d | s8 <;>
        simp [h2, Except.map]
  · cases hst : stepTime e s with
    | error d => rfl
    | ok t =>
      simp only [Except.toOption, Option.map]
      rw [(stepTime_ok e s t hst).2]

/-- C7: starting from the constructed solver (`timeStep = startStep`),
after `n` completed calls to `stepTime` the step counter is
`startStep + n`, and `finished` reports `true` exactly when the counter
has reached `startStep + nt` — equivalently, exactly when at least `nt`
steps have completed. -/
theorem finished_spec (e : Env) (sp : SimulationParameters) (n : Nat)
    (s' : NavierStokesSolver)
    (h : runSteps e n (mkNavierStokesSolver sp) = some s') :
    s'.timeStep = sp.startStep + n
    ∧ (finished s' = true ↔ sp.startStep + sp.nt ≤ s'.timeStep)
    ∧ (finished s' = true ↔ sp.nt ≤ (n : Int)) := by
  obtain ⟨hp, ht⟩ := runSteps_ok e n (mkNavierStokesSolver sp) s' h
  have hts : s'.timeStep = sp.startStep + n := by rw [ht]; rfl
  have hiff : finished s' = true ↔ sp.startStep + sp.nt ≤ s'.timeStep := by
    by_cases hc : sp.startStep + sp.nt ≤ s'.timeStep <;>
      simp [finished, hp, mkNavierStokesSolver, hc]
  refine ⟨hts, hiff, ?_⟩
  rw [hiff, hts]
  omega

/-- An environment in which every oracle returns empty data and both
solves converge (reason 0). -/
def envW : Env :=
  { explicitTerms := fun _ => ([], [])
    ghostValues := fun _ => ([], [], [])
    bc1Values := fun _ => []
    r2Values := fun _ => []
    ksp1 := fun _ => ([], 0)
    ksp2 := fun _ => ([], 0) }

/-- An environment in which both solves diverge (reasons −3 and −5). -/
def envDiv : Env :=
  { explicitTerms := fun _ => ([], [])
    ghostValues := fun _ => ([], [], [])
    bc1Values := fun _ => []
    r2Values := fun _ => []
    ksp1 := fun _ => ([], -3)
    ksp2 := fun _ => ([], -5) }

/-- Concrete configuration: start at step 0, run 2 steps, save every 10. -/
def spW : SimulationParameters := { startStep := 0, nt := 2, nsave := 10 }

/-- The freshly constructed solver for `spW`. -/
def solverW : NavierStokesSolver := mkNavierStokesSolver spW

/-- The solver after two completed steps under `envW`. -/
def solverW2 : NavierStokesSolver := (runSteps envW 2 solverW).getD solverW

/-- A solver at step index 20 (a multiple of `nsave = 10`). -/
def solverSave : NavierStokesSolver := { mkNavierStokesSolver spW with timeStep := 20 }

/-- A solver at step index 7 with concrete `MHat`, `rn`, `bc1` entries. -/
def solverDiv : NavierStokesSolver :=
  { mkNavierStokesSolver spW with timeStep := 7, MHat := [2], rn := [3], bc1 := [4] }

theorem finished_spec_witness :
    solverW2.timeStep = spW.startStep + (2 : Nat)
    ∧ (finished solverW2 = true ↔ spW.startStep + spW.nt ≤ solverW2.timeStep)
    ∧ (finished solverW2 = true ↔ spW.nt ≤ ((2 : Nat) : Int)) :=
  finished_spec envW spW 2 solverW2 rfl

theorem savePoint_spec_witness :
    (savePoint solverSave = some true ↔ solverSave.simParams.nsave ∣ solverSave.timeStep)
    ∧ (savePoint solverSave = some false ↔ ¬ solverSave.simParams.nsave ∣ solverSave.timeStep) :=
  savePoint_spec solverSave (by decide) (by decide)

theorem generateRHS1_rhs1_spec_witness :
    (generateRHS1 solverDiv).rhs1.get ⟨0, by decide⟩ =
      solverDiv.MHat.get ⟨0, by decide⟩ *
        (solverDiv.rn.get ⟨0, by decide⟩ + solverDiv.bc1.get ⟨0, by decide⟩) :=
  generateRHS1_rhs1_spec solverDiv 0 (by decide) (by decide) (by decide) (by decide)

/-- C5 as stated is false: at step index 7, a System-1 divergence with
reason −3 produces a diagnostic whose interpolated data is exactly
`[-3]` — the convergence-reason code alone; the step index 7 is not part
of the diagnostic. -/
theorem solveDiverged_counterexample :
    solverDiv.timeStep = 7
    ∧ solveIntermediateVelocity envDiv solverDiv
        = Except.error { message := "Velocity solve diverged due to reason: %d\n"
                         args := [-3] }
    ∧ ((-3 : Int) ∈ ([-3] : List Int))
    ∧ ¬ ((7 : Int) ∈ ([-3] : List Int)) := by
  refine ⟨rfl, ?_, by decide, by decide⟩
  rfl

/-- C5 (amended): whenever the underlying solver returns a negative
convergence-reason code for System 1 or System 2, the engine reports a
fatal diagnostic containing the convergence-reason code (the step index
is not included in the diagnostic) and terminates immediately — the step
aborts with that diagnostic, with no retry and no state surviving; on a
non-negative reason code the function returns normally, with only the
solution vector updated. -/
theorem solveDiverged_spec (e : Env) (s : NavierStokesSolver) :
    ((e.ksp1 s.rhs1).2 < 0 →
      solveIntermediateVelocity e s
        = Except.error { message := "Velocity solve diverged due to reason: %d\n"
                         args := [(e.ksp1 s.rhs1).2] })
    ∧ (0 ≤ (e.ksp1 s.rhs1).2 →
      solveIntermediateVelocity e s
        = Except.ok { s with qStar := (e.ksp1 s.rhs1).1 })
    ∧ ((e.ksp2 s.rhs2).2 < 0 →
      solvePoissonSystem e s
        = Except.error { message := "Poisson solve diverged due to reason: %d\n"
                         args := [(e.ksp2 s.rhs2).2] })
    ∧ (0 ≤ (e.ksp2 s.rhs2).2 →
      solvePoissonSystem e s
        = Except.ok { s with lambda := (e.ksp2 s.rhs2).1 }) := by
  refine ⟨fun h => ?_, fun h => ?_, fun h => ?_, fun h => ?_⟩
  · simp [solveIntermediateVelocity, h]
  · simp [solveIntermediateVelocity, not_lt.mpr h]
  · simp [solvePoissonSystem, h]
  · simp [solvePoissonSystem, not_lt.mpr h]

theorem solveDiverged_spec_witness :
    (solveIntermediateVelocity envDiv solverDiv
        = Except.error { message := "Velocity solve diverged due to reason: %d\n"
                         args := [(envDiv.ksp1 solverDiv.rhs1).2] })
    ∧ (solvePoissonSystem envDiv solverDiv
        = Except.error { message := "Poisson solve diverged due to reason: %d\n"
                         args := [(envDiv.ksp2 solverDiv.rhs2).2] })
    ∧ (solveIntermediateVelocity envW solverDiv
        = Except.ok { solverDiv with qStar := (envW.ksp1 solverDiv.rhs1).1 })
    ∧ (solvePoissonSystem envW solverDiv
        = Except.ok { solverDiv with lambda := (envW.ksp2 solverDiv.rhs2).1 }) :=
  ⟨(solveDiverged_spec envDiv solverDiv).1 (by decide),
   (solveDiverged_spec envDiv solverDiv).2.2.1 (by decide),
   (solveDiverged_spec envW solverDiv).2.1 (by decide),
   (solveDiverged_spec envW solverDiv).2.2.2 (by decide)⟩
